import Mathlib

/-
  Verification of the MAFC iterative fact-checking core
  (src/safe/searcher.py, src/safe/judge.py, src/safe/reasoner.py).

  Embedding conventions:
  * The language-model generation service and the search backend are external
    collaborators.  Each is modelled as an oracle indexed by its call count
    (gen : Nat -> String for model.generate, api : Nat -> String for _call_api).
    Prompt text never influences control flow in the source -- only the
    responses are inspected -- so prompt construction is not modelled; the
    call index is threaded explicitly through every definition.
  * Python strings are Lean Strings; operations (replace, strip, lower,
    substring membership, startswith) are re-implemented over List Char so
    that every definition kernel-evaluates.
  * Python int counters (num_tries, max_retries, max_steps) are Nat; the
    configuration values are nonnegative counts.
  * A Python value that may be None is an Option.  A function that can raise
    is embedded with Except String.
  * Functions missing from the provided sources (common/label.py,
    common/utils.py helpers) are modelled from the spec and marked
    "Modelled from the spec:" in their doc comments.
-/

/-! ## Character/string helpers (re-implemented so they kernel-evaluate) -/

/-- The backquote character, written via its code point. -/
def backquoteChar : Char := Char.ofNat 96

/-- The double-quote character, written via its code point. -/
def quoteChar : Char := Char.ofNat 34

/-- Python str.replace with empty replacement for the double quote,
as in model.generate(...).replace in searcher.py line 92. -/
def removeQuotes (s : String) : String :=
  String.mk (s.data.filter (fun c => c ≠ quoteChar))

/-- Python str.replace removing newlines, searcher.py line 167. -/
def removeNl (s : String) : String :=
  String.mk (s.data.filter (fun c => c ≠ '\n'))

/-- Python str.lower (ASCII, sufficient for the label/keyword comparisons). -/
def lowerStr (s : String) : String :=
  String.mk (s.data.map Char.toLower)

/-- Python str.strip. -/
def stripStr (s : String) : String :=
  String.mk (((s.data.dropWhile Char.isWhitespace).reverse.dropWhile Char.isWhitespace).reverse)

/-- Python str.startswith. -/
def startsWithStr (s p : String) : Bool :=
  p.data.isPrefixOf s.data

/-- Python substring membership (needle in hay). -/
def infixOf (needle : List Char) : List Char → Bool
  | [] => needle.isEmpty
  | c :: rest => needle.isPrefixOf (c :: rest) || infixOf needle rest

/-- Keep word characters and whitespace: the effect of
re.sub removing every character that is neither alphanumeric,
underscore nor whitespace (judge.py lines 64 and 122). -/
def filterWordOrSpace (l : List Char) : List Char :=
  l.filter (fun c => c.isAlphanum || c = '_' || c.isWhitespace)

/-- Split a character list at the first occurrence of a separator,
returning the part before and the part after, or none when absent. -/
def splitFirst (sep : List Char) : List Char → Option (List Char × List Char)
  | [] => none
  | c :: rest =>
    if sep.isPrefixOf (c :: rest) then some ([], (c :: rest).drop sep.length)
    else
      match splitFirst sep rest with
      | some p => some (c :: p.1, p.2)
      | none => none

/-- Split a character list at every occurrence of a single character. -/
def splitChar (c : Char) : List Char → List (List Char)
  | [] => [[]]
  | x :: xs =>
    let r := splitChar c xs
    if x = c then [] :: r
    else
      match r with
      | [] => [[x]]
      | h :: t => (x :: h) :: t

/-- Elements at odd positions (the pieces enclosed between delimiter pairs). -/
def oddElems {α : Type} : List α → List α
  | [] => []
  | [_] => []
  | _ :: b :: rest => b :: oddElems rest

/-- The triple-backquote code fence. -/
def fenceChars : List Char := ("```" : String).data

/-! ## Missing helpers modelled from the spec -/

/-- Modelled from the spec: common/utils.py is not in the provided sources.
Spec section 4.1 step 3: the query is pulled "from a fenced
code-block-like span"; this returns the text between the first pair of
triple-backquote fences (trimmed), or the empty string when no complete
fenced block exists. -/
def extract_first_code_block (text : String) : String :=
  match splitFirst fenceChars text.data with
  | none => ""
  | some p =>
    match splitFirst fenceChars p.2 with
    | none => ""
    | some q => stripStr (String.mk q.1)

/-- Modelled from the spec: common/utils.py is not in the provided sources.
Spec section 4.2 step 1: the reasoning style pulls "the first bracketed
span"; this returns the text between the first opening square bracket and
the next closing one, or the empty string when absent. -/
def extract_first_square_brackets (text : String) : String :=
  match splitFirst ("[" : String).data text.data with
  | none => ""
  | some p =>
    match splitFirst ("]" : String).data p.2 with
    | none => ""
    | some q => String.mk q.1

/-- Modelled from the spec: common/utils.py is not in the provided sources.
Spec section 4.2 step 1: the verdict style pulls "the last code span";
this returns the contents of the last complete single-backquote span,
or the empty string when there is none. -/
def extract_last_code_span (text : String) : String :=
  let parts := splitChar backquoteChar text.data
  match (oddElems parts.dropLast).getLast? with
  | none => ""
  | some s => String.mk s

/-- Modelled from the spec: common/utils.py is not in the provided sources.
Spec sections 4.1/4.2: guardrail refusals are detected by "recognizable
refusal-prefix patterns such as I cannot / I am sorry". -/
def isGuardrailHit (response : String) : Bool :=
  startsWithStr response "I cannot" || startsWithStr response "I\x27m sorry"

/-! ## The label set -/

/-- Modelled from the spec: common/label.py is not in the provided sources.
Spec section 3: "a closed tagged enumeration (e.g. SUPPORTED, REFUTED,
NOT_ENOUGH_INFO, REFUSED_TO_ANSWER)".  The canonical value of
REFUSED_TO_ANSWER is "refused": judge.py line 119 stores the literal
string "refused" for a guardrail hit and line 101 converts it back with
an enumeration lookup, and line 139 feeds REFUSED_TO_ANSWER.value through
the same lowercase lookup, so the values are lowercase. -/
inductive Label where
  | SUPPORTED
  | NOT_ENOUGH_INFO
  | REFUTED
  | REFUSED_TO_ANSWER
deriving DecidableEq

/-- The canonical string value of each label (Python Enum .value). -/
def Label.value : Label → String
  | .SUPPORTED => "supported"
  | .NOT_ENOUGH_INFO => "not enough information"
  | .REFUTED => "refuted"
  | .REFUSED_TO_ANSWER => "refused"

/-- Iteration order of the Label enumeration. -/
def allLabels : List Label :=
  [.SUPPORTED, .NOT_ENOUGH_INFO, .REFUTED, .REFUSED_TO_ANSWER]

/-- Python Label(s): enumeration lookup by value, none when the lookup
would raise ValueError. -/
def labelOfValue? (s : String) : Option Label :=
  allLabels.find? (fun l => l.value == s)

/-! ## Searcher (src/safe/searcher.py) -/

/-- searcher.py lines 17-23: the dataclass SearchResult.  The result field
is Optional: line 122 stores None for a duplicate result. -/
structure SearchResult where
  query : String
  result : Option String
deriving DecidableEq

/-- Output of the query-proposal phase of _maybe_get_next_search
(searcher.py lines 80-111): the chosen query, the updated generate-call
count, and whether the duplicate-query mixer re-prompt was used. -/
structure QueryOut where
  query : String
  i : Nat
  mixed : Bool
deriving DecidableEq

/-- Output of the result-fetching phase of _maybe_get_next_search
(searcher.py lines 113-136): the (possibly absent) result, the updated
generate-call count and the updated backend-call count. -/
structure FetchOut where
  result : Option String
  i : Nat
  j : Nat
deriving DecidableEq

/-- Output of _maybe_get_next_search as consumed by the retry loop. -/
structure StepOut where
  next : Option SearchResult
  i : Nat
  j : Nat
  mixed : Bool
deriving DecidableEq

/-- Output of the inner retry loop of Searcher.search
(searcher.py lines 54-59), with the number of times its body ran. -/
structure RetryOut where
  next : Option SearchResult
  i : Nat
  j : Nat
  tries : Nat
  mixed : Bool
deriving DecidableEq

/-- searcher.py lines 92-101: generate the raw model response, strip double
quotes, substitute the bracket-wrapped claim on a guardrail prefix, extract
the query from the first fenced code block, and fall back to
post_process_query (one more generate call, newlines removed,
searcher.py lines 146-170) when no block is found.  Returns the candidate
query together with the updated generate-call count. -/
def rawQueryStep (gen : Nat → String) (claim : String) (i : Nat) : String × Nat :=
  let raw := removeQuotes (gen i)
  let modelResponse :=
    if startsWithStr raw "I cannot" || startsWithStr raw "I\x27m sorry" then
      "[" ++ claim ++ "]"
    else raw
  let q0 := extract_first_code_block modelResponse
  if q0 = "" then (removeNl (gen (i + 1)), i + 2) else (q0, i + 1)

/-- searcher.py lines 92-111: the full query proposal.  When the candidate
query repeats a past query, the mixer re-prompt is issued once and its raw
response becomes the query without any further duplicate check
(lines 104-111). -/
def queryProposal (gen : Nat → String) (claim : String) (pastQueries : List String)
    (i : Nat) : QueryOut :=
  if (rawQueryStep gen claim i).1 ∈ pastQueries then
    ⟨gen (rawQueryStep gen claim i).2, (rawQueryStep gen claim i).2 + 1, true⟩
  else
    ⟨(rawQueryStep gen claim i).1, (rawQueryStep gen claim i).2, false⟩

/-- searcher.py lines 113-136: call the search backend, discard the result
when its text exactly matches a previously stored result (keeping the
query), and summarize a present result longer than 728 characters with one
more generate call. -/
def fetchResult (gen api : Nat → String) (pastResults : List String)
    (summarize : Bool) (i j : Nat) : FetchOut :=
  let r0 := api j
  if r0 ∈ pastResults then ⟨none, i, j + 1⟩
  else if summarize && r0.length > 728 then ⟨some (gen i), i + 1, j + 1⟩
  else ⟨some r0, i, j + 1⟩

/-- searcher.py lines 72-144: Searcher._maybe_get_next_search.  Every path
ends at the final return of a SearchResult (line 144), so the next field is
always present. -/
def maybeGetNextSearch (gen api : Nat → String) (claim : String)
    (past : List SearchResult) (summarize : Bool) (i j : Nat) : StepOut :=
  let qp := queryProposal gen claim (past.map SearchResult.query) i
  let fr := fetchResult gen api (past.filterMap SearchResult.result) summarize qp.i j
  { next := some { query := qp.query, result := fr.result },
    i := fr.i, j := fr.j, mixed := qp.mixed }

/-- searcher.py lines 54-59: the inner retry loop of Searcher.search,
repeating while next_search is falsy and num_tries has not passed
max_retries.  The fuel argument is max_retries + 1, the number of
iterations the Python condition admits. -/
def searchInner (gen api : Nat → String) (claim : String)
    (past : List SearchResult) (summarize : Bool) :
    Nat → Nat → Nat → Nat → RetryOut
  | i, _j, 0, t => ⟨none, i, _j, t, false⟩
  | i, j, fuel + 1, t =>
    let m := maybeGetNextSearch gen api claim past summarize i j
    match m.next with
    | some r => ⟨some r, m.i, m.j, t + 1, m.mixed⟩
    | none => searchInner gen api claim past summarize m.i m.j fuel (t + 1)

/-- The state of one search session: the evidence store, the generate-call
and backend-call counts, the number of outer steps executed, and whether
any step used the duplicate-query mixer. -/
structure SState where
  results : List SearchResult
  i : Nat
  j : Nat
  steps : Nat
  mixed : Bool
deriving DecidableEq

/-- searcher.py lines 61-66: the store update of one outer step.  The pair
is appended only when next_search exists and its result is truthy; a step
whose result is absent or empty leaves the store unchanged. -/
def appendResult (rs : List SearchResult) (o : Option SearchResult) :
    List SearchResult :=
  match o with
  | none => rs
  | some ns =>
    match ns.result with
    | none => rs
    | some res => if res = "" then rs else rs ++ [ns]

/-- searcher.py lines 53-66: one outer step of Searcher.search without the
sufficiency check: run the inner retry loop, then update the store. -/
def searchStepCore (gen api : Nat → String) (claim : String) (summarize : Bool)
    (mr : Nat) (st : SState) : SState :=
  let r := searchInner gen api claim st.results summarize st.i st.j (mr + 1) 0
  ⟨appendResult st.results r.next, r.i, r.j, st.steps + 1, st.mixed || r.mixed⟩

/-- searcher.py lines 53-70: one outer step followed by the optional
sufficiency check (lines 68-69 and 188-216).  The Bool is the early-stop
signal: with limit_search set it is true exactly when the sufficiency
response, lowercased, equals "sufficient". -/
def searchIteration (gen api : Nat → String) (claim : String)
    (limit summarize : Bool) (mr : Nat) (st : SState) : SState × Bool :=
  let st1 := searchStepCore gen api claim summarize mr st
  if limit then
    ({ st1 with i := st1.i + 1 }, lowerStr (gen st1.i) == "sufficient")
  else (st1, false)

/-- searcher.py lines 53-70: the outer loop of Searcher.search over at most
max_steps iterations, breaking early on the stop signal. -/
def searchLoop (gen api : Nat → String) (claim : String)
    (limit summarize : Bool) (mr : Nat) : SState → Nat → SState
  | st, 0 => st
  | st, n + 1 =>
    let p := searchIteration gen api claim limit summarize mr st
    if p.2 then p.1 else searchLoop gen api claim limit summarize mr p.1 n

/-- searcher.py lines 43-70: Searcher.search. -/
def search (gen api : Nat → String) (claim : String) (limit summarize : Bool)
    (maxSteps mr : Nat) : SState :=
  searchLoop gen api claim limit summarize mr ⟨[], 0, 0, 0, false⟩ maxSteps

/-! ## Judge (src/safe/judge.py) -/

/-- judge.py lines 19-22: the dataclass FinalAnswer.  An instance is always
truthy in Python (no __bool__ or __len__), so the retry loop condition
"not final_answer" is false for every constructed FinalAnswer. -/
structure FinalAnswer where
  response : String
  answer : String
deriving DecidableEq

/-- judge.py line 124: the list of lowercased canonical label values. -/
def valid_labels : List String :=
  allLabels.map (fun l => lowerStr l.value)

/-- judge.py lines 61-80: Judge._extract_verdict.  Normalize the last code
span (strip punctuation, trim, lowercase); empty means refusal; otherwise
try the enumeration lookup and fall back to the first class in self.classes
whose canonical value is a substring of the normalized answer. -/
def extractVerdict (classes : List Label) (response : String) : Label :=
  let answer := lowerStr (stripStr (String.mk (filterWordOrSpace (extract_last_code_span response).data)))
  if answer = "" then Label.REFUSED_TO_ANSWER
  else
    match labelOfValue? answer with
    | some v => v
    | none =>
      match classes.find? (fun c => infixOf c.value.data answer.data) with
      | some c => c
      | none => Label.REFUSED_TO_ANSWER

/-- judge.py lines 47-59: Judge._generate_verdict.  One generate call; a
guardrail hit short-circuits to REFUSED_TO_ANSWER, otherwise the verdict
is extracted from the response.  Returns the verdict and the updated
generate-call count. -/
def generateVerdict (gen : Nat → String) (classes : List Label) (i : Nat) :
    Label × Nat :=
  let response := gen i
  ((if isGuardrailHit response then Label.REFUSED_TO_ANSWER
    else extractVerdict classes response), i + 1)

/-- Result of Judge.judge: the final verdict, the number of generate calls
made, and whether the retry budget was exhausted (the loop left via the
break at judge.py line 44). -/
structure JudgeOut where
  verdict : Label
  gens : Nat
  exhausted : Bool
deriving DecidableEq

/-- judge.py lines 38-45: the retry loop of Judge.judge.  The Python
condition admits max_retries + 1 verdict generations (n_retries passes
max_retries on the last one), which is the fuel argument. -/
def judgeLoop (gen : Nat → String) (classes : List Label) : Nat → Nat → JudgeOut
  | i, 0 => ⟨Label.REFUSED_TO_ANSWER, i, true⟩
  | i, fuel + 1 =>
    let p := generateVerdict gen classes i
    if p.1 = Label.REFUSED_TO_ANSWER then judgeLoop gen classes p.2 fuel
    else ⟨p.1, p.2, false⟩

/-- judge.py lines 38-45: Judge.judge. -/
def judgeJudge (gen : Nat → String) (classes : List Label) (maxRetries : Nat) :
    JudgeOut :=
  judgeLoop gen classes 0 (maxRetries + 1)

/-- judge.py lines 104-141: Judge.maybe_get_final_answer.  One generate
call; a guardrail hit returns a FinalAnswer with answer "refused"
(line 119); a bracketed answer whose lowercase form is a valid label value
is returned as is (lines 121-127); otherwise one corrective generate call
is made and its lowercased response is kept when it is a valid label value,
else replaced by REFUSED_TO_ANSWER.value (lines 129-141).  Every branch
constructs a FinalAnswer; the declared None alternative is never produced.
The evidence list only feeds the prompt, which is not modelled. -/
def maybeGetFinalAnswer (gen : Nat → String) (_evidence : List SearchResult)
    (i : Nat) : Option FinalAnswer × Nat :=
  let modelResponse := gen i
  if isGuardrailHit modelResponse then
    (some ⟨modelResponse, "refused"⟩, i + 1)
  else
    let answer := stripStr (String.mk (filterWordOrSpace (extract_first_square_brackets modelResponse).data))
    if modelResponse ≠ "" ∧ lowerStr answer ∈ valid_labels then
      (some ⟨modelResponse, answer⟩, i + 1)
    else
      let adjusted := lowerStr (gen (i + 1))
      (some ⟨modelResponse,
             if adjusted ∈ valid_labels then adjusted
             else Label.REFUSED_TO_ANSWER.value⟩, i + 2)

/-- Result of the retry loop of Judge.reason: the final answer (if any),
the updated generate-call count, and the number of loop iterations. -/
structure ReasonOut where
  fa : Option FinalAnswer
  i : Nat
  tries : Nat
deriving DecidableEq

/-- judge.py lines 92-95: the retry loop of Judge.reason, repeating while
final_answer is falsy and num_tries has not passed max_retries.  The fuel
argument is max_retries + 1. -/
def reasonLoop (gen : Nat → String) (ev : List SearchResult) :
    Nat → Nat → Nat → ReasonOut
  | i, 0, t => ⟨none, i, t⟩
  | i, fuel + 1, t =>
    let p := maybeGetFinalAnswer gen ev i
    match p.1 with
    | some fa => ⟨some fa, p.2, t + 1⟩
    | none => reasonLoop gen ev p.2 fuel (t + 1)

/-- judge.py line 99: the value returned when the retry loop of
Judge.reason ends without a final answer. -/
def judgeReasonFallback : Label × String := (Label.REFUTED, "")

/-- judge.py lines 85-102: Judge.reason.  The enumeration conversion
Label(final_answer.answer.lower()) at line 101 raises ValueError when the
stored answer is not a canonical value, embedded as the error case. -/
def judgeReason (gen : Nat → String) (ev : List SearchResult) (mr : Nat) :
    Except String (Label × String) :=
  let r := reasonLoop gen ev 0 (mr + 1) 0
  match r.fa with
  | none => .ok judgeReasonFallback
  | some fa =>
    match labelOfValue? (lowerStr fa.answer) with
    | some l => .ok (l, fa.response)
    | none => .error "ValueError"

/-! ## Reasoner (src/safe/reasoner.py)

reasoner.py lines 9-13 of the provided file contain unresolved git
merge-conflict markers around the import block, so the module cannot even
be parsed; the embedding below merges both sides of the conflict (the body
uses names from each) and models the executable content of the functions. -/

/-- reasoner.py line 63: valid_labels uses the raw (not lowercased)
canonical values. -/
def reasonerValidLabels : List String :=
  allLabels.map Label.value

/-- reasoner.py lines 48-75: Reasoner.maybe_get_final_answer.  The
guardrail branch (lines 56-59) answers with the capitalized literal
"Refused".  When the bracketed answer is not a valid label value, the
corrective branch at line 68 interpolates the name labels, which is
undefined in that scope (valid_labels was defined at line 63), so the call
raises NameError before any corrective generation happens; this is the
error case. -/
def reasonerMaybeGetFinalAnswer (gen : Nat → String) (i : Nat) :
    Except String (Option FinalAnswer) × Nat :=
  let modelResponse := gen i
  if startsWithStr modelResponse "I cannot" then
    (.ok (some ⟨modelResponse, "Refused"⟩), i + 1)
  else
    let answer := stripStr (String.mk (filterWordOrSpace (extract_first_square_brackets modelResponse).data))
    if modelResponse ≠ "" ∧ answer ∈ reasonerValidLabels then
      (.ok (some ⟨modelResponse, answer⟩), i + 1)
    else
      (.error "NameError: name labels is not defined", i + 1)

/-- reasoner.py lines 36-39: the retry loop of Reasoner.reason, with any
exception from maybe_get_final_answer propagating. -/
def reasonerLoop (gen : Nat → String) : Nat → Nat → Except String (Option FinalAnswer) × Nat
  | i, 0 => (.ok none, i)
  | i, fuel + 1 =>
    match reasonerMaybeGetFinalAnswer gen i with
    | (.error e, i2) => (.error e, i2)
    | (.ok (some fa), i2) => (.ok (some fa), i2)
    | (.ok none, i2) => reasonerLoop gen i2 fuel

/-- reasoner.py lines 32-46: Reasoner.reason.  After the loop,
final_answer.answer is fed to the enumeration constructor Label(...)
(line 44): a None final_answer would raise AttributeError, and an answer
that is not a canonical value (including the guardrail literal "Refused",
whose enumeration value is lowercase "refused") raises ValueError. -/
def reasonerReason (gen : Nat → String) (mr : Nat) :
    Except String (Label × String) :=
  match reasonerLoop gen 0 (mr + 1) with
  | (.error e, _) => .error e
  | (.ok none, _) => .error "AttributeError"
  | (.ok (some fa), _) =>
    match labelOfValue? fa.answer with
    | some l => .ok (l, fa.response)
    | none => .error "ValueError"

/-! ## Concrete oracles used by the evaluation theorems -/

/-- A backend result longer than the 728-character summarization
threshold. -/
def longR : String := String.mk (List.replicate 729 'r')

/-- Model responses for the duplicate-query session: the model proposes the
same fenced query q twice, and when asked by the mixer for a different
query it returns q yet again; the two long backend results are summarized
to S and S2. -/
def genC5 : Nat → String
  | 0 => "```q```"
  | 1 => "S"
  | 2 => "```q```"
  | 3 => "q"
  | 4 => "S2"
  | _ => ""

/-- Backend results for the duplicate-query session: always the same long
text, which never matches a stored summary. -/
def apiC5 : Nat → String := fun _ => longR

/-- Model responses for the duplicate-result session: three fenced queries
q1, q2, q2. -/
def genC3 : Nat → String
  | 0 => "```q1```"
  | 1 => "```q2```"
  | 2 => "```q2```"
  | _ => ""

/-- Backend results for the duplicate-result session: R twice, then R2. -/
def apiC3 : Nat → String
  | 0 => "R"
  | 1 => "R"
  | 2 => "R2"
  | _ => ""

/-- Model responses for the sufficiency scenario: a query, then
"insufficient", then a second query, then "sufficient". -/
def genC6 : Nat → String
  | 0 => "```q1```"
  | 1 => "insufficient"
  | 2 => "```q2```"
  | 3 => "sufficient"
  | _ => ""

/-- Backend results for the sufficiency scenario. -/
def apiC6 : Nat → String
  | 0 => "r1"
  | 1 => "r2"
  | _ => ""

set_option maxRecDepth 10000

/-- Model responses for a plain two-step session with distinct queries. -/
def genW : Nat → String
  | 0 => "```a```"
  | 1 => "```b```"
  | _ => ""

/-- Backend results for the plain two-step session. -/
def apiW : Nat → String
  | 0 => "ra"
  | 1 => "rb"
  | _ => ""

/-! ## Helper lemmas -/

/-- The query chosen without the mixer re-prompt is fresh: when the mixed
flag is false, the proposed query was checked against the past queries. -/
theorem queryProposal_fresh (gen : Nat → String) (claim : String)
    (pq : List String) (i : Nat)
    (h : (queryProposal gen claim pq i).mixed = false) :
    (queryProposal gen claim pq i).query ∉ pq := by
  by_cases hc : (rawQueryStep gen claim i).1 ∈ pq
  · simp [queryProposal, hc] at h
  · simp [queryProposal, hc]

/-- The inner retry loop always returns after its first call, because
_maybe_get_next_search ends at an unconditional return of a SearchResult. -/
theorem searchInner_eq (gen api : Nat → String) (claim : String)
    (past : List SearchResult) (summarize : Bool) (i j f t : Nat) :
    searchInner gen api claim past summarize i j (f + 1) t =
    ⟨(maybeGetNextSearch gen api claim past summarize i j).next,
     (maybeGetNextSearch gen api claim past summarize i j).i,
     (maybeGetNextSearch gen api claim past summarize i j).j,
     t + 1,
     (maybeGetNextSearch gen api claim past summarize i j).mixed⟩ := rfl

/-- The one-step unfolding of searchStepCore through the inner retry loop. -/
theorem stepCore_eq (gen api : Nat → String) (claim : String)
    (summarize : Bool) (mr : Nat) (st : SState) :
    searchStepCore gen api claim summarize mr st =
    ⟨appendResult st.results
       (maybeGetNextSearch gen api claim st.results summarize st.i st.j).next,
     (maybeGetNextSearch gen api claim st.results summarize st.i st.j).i,
     (maybeGetNextSearch gen api claim st.results summarize st.i st.j).j,
     st.steps + 1,
     st.mixed || (maybeGetNextSearch gen api claim st.results summarize st.i st.j).mixed⟩ := rfl

/-- The store update never adds more than one entry. -/
theorem appendResult_len (rs : List SearchResult) (o : Option SearchResult) :
    (appendResult rs o).length ≤ rs.length + 1 := by
  rcases o with _ | ns
  · simp [appendResult]
  · rcases hns : ns.result with _ | res
    · simp [appendResult, hns]
    · by_cases hres : res = "" <;> simp [appendResult, hns, hres]

/-- The store update preserves distinctness of queries when the candidate
query does not occur among the stored ones. -/
theorem appendResult_nodup (rs : List SearchResult) (o : Option SearchResult)
    (hfresh : ∀ ns, o = some ns → ns.query ∉ rs.map SearchResult.query)
    (hnd : (rs.map SearchResult.query).Nodup) :
    ((appendResult rs o).map SearchResult.query).Nodup := by
  rcases o with _ | ns
  · simpa [appendResult] using hnd
  · rcases hns : ns.result with _ | res
    · simpa [appendResult, hns] using hnd
    · by_cases hres : res = ""
      · simpa [appendResult, hns, hres] using hnd
      · have hq := hfresh ns rfl
        simp [appendResult, hns, hres, List.nodup_append, hnd]
        intro a ha hqa
        exact hq (hqa ▸ (List.mem_map_of_mem SearchResult.query ha))

/-- Projections of one outer iteration: the store and mixer flag come from
the core step; with limit_search the sufficiency check only consumes one
more generate call. -/
theorem iteration_results (gen api : Nat → String) (claim : String)
    (limit summarize : Bool) (mr : Nat) (st : SState) :
    (searchIteration gen api claim limit summarize mr st).1.results =
    (searchStepCore gen api claim summarize mr st).results := by
  unfold searchIteration
  cases limit <;> rfl

/-- The mixer flag of one outer iteration. -/
theorem iteration_mixed (gen api : Nat → String) (claim : String)
    (limit summarize : Bool) (mr : Nat) (st : SState) :
    (searchIteration gen api claim limit summarize mr st).1.mixed =
    (searchStepCore gen api claim summarize mr st).mixed := by
  unfold searchIteration
  cases limit <;> rfl

/-- One outer iteration grows the store by at most one entry. -/
theorem iteration_len (gen api : Nat → String) (claim : String)
    (limit summarize : Bool) (mr : Nat) (st : SState) :
    (searchIteration gen api claim limit summarize mr st).1.results.length ≤
    st.results.length + 1 := by
  simp only [iteration_results, stepCore_eq]
  exact appendResult_len _ _

/-- The mixer flag only ever switches on: a run ending with it off also
started with it off. -/
theorem iteration_mixed_mono (gen api : Nat → String) (claim : String)
    (limit summarize : Bool) (mr : Nat) (st : SState)
    (h : (searchIteration gen api claim limit summarize mr st).1.mixed = false) :
    st.mixed = false := by
  rw [iteration_mixed, stepCore_eq] at h
  exact (Bool.or_eq_false_iff.mp h).1

/-- One outer iteration with the mixer unused preserves distinctness of the
stored queries. -/
theorem iteration_nodup (gen api : Nat → String) (claim : String)
    (limit summarize : Bool) (mr : Nat) (st : SState)
    (hm : (searchIteration gen api claim limit summarize mr st).1.mixed = false)
    (hnd : (st.results.map SearchResult.query).Nodup) :
    ((searchIteration gen api claim limit summarize mr st).1.results.map
      SearchResult.query).Nodup := by
  simp only [iteration_results, stepCore_eq]
  rw [iteration_mixed, stepCore_eq] at hm
  have hmix : (maybeGetNextSearch gen api claim st.results summarize st.i st.j).mixed = false :=
    (Bool.or_eq_false_iff.mp hm).2
  refine appendResult_nodup _ _ ?_ hnd
  intro ns hns
  have hq : ns.query =
      (queryProposal gen claim (st.results.map SearchResult.query) st.i).query := by
    have : (maybeGetNextSearch gen api claim st.results summarize st.i st.j).next =
        some ns := hns
    rw [show (maybeGetNextSearch gen api claim st.results summarize st.i st.j).next =
        some ⟨(queryProposal gen claim (st.results.map SearchResult.query) st.i).query,
              (fetchResult gen api (st.results.filterMap SearchResult.result) summarize
                (queryProposal gen claim (st.results.map SearchResult.query) st.i).i
                st.j).result⟩ from rfl] at this
    cases this
    rfl
  rw [hq]
  exact queryProposal_fresh gen claim _ st.i
    (by simpa [maybeGetNextSearch] using hmix)

/-- The outer loop grows the store by at most one entry per remaining step. -/
theorem searchLoop_len (gen api : Nat → String) (claim : String)
    (limit summarize : Bool) (mr : Nat) :
    ∀ (n : Nat) (st : SState),
      (searchLoop gen api claim limit summarize mr st n).results.length ≤
      st.results.length + n := by
  intro n
  induction n with
  | zero => intro st; simp [searchLoop]
  | succ k ih =>
    intro st
    unfold searchLoop
    by_cases hstop : (searchIteration gen api claim limit summarize mr st).2
    · simp only [hstop, if_true]
      calc (searchIteration gen api claim limit summarize mr st).1.results.length
          ≤ st.results.length + 1 := iteration_len gen api claim limit summarize mr st
        _ ≤ st.results.length + (k + 1) := by omega
    · simp only [hstop, if_false]
      calc (searchLoop gen api claim limit summarize mr
              (searchIteration gen api claim limit summarize mr st).1 k).results.length
          ≤ (searchIteration gen api claim limit summarize mr st).1.results.length + k :=
            ih _
        _ ≤ (st.results.length + 1) + k :=
            Nat.add_le_add_right (iteration_len gen api claim limit summarize mr st) k
        _ = st.results.length + (k + 1) := by omega

/-- A loop run ending with the mixer flag off started with it off. -/
theorem searchLoop_mixed_mono (gen api : Nat → String) (claim : String)
    (limit summarize : Bool) (mr : Nat) :
    ∀ (n : Nat) (st : SState),
      (searchLoop gen api claim limit summarize mr st n).mixed = false →
      st.mixed = false := by
  intro n
  induction n with
  | zero => intro st h; simpa [searchLoop] using h
  | succ k ih =>
    intro st h
    unfold searchLoop at h
    by_cases hstop : (searchIteration gen api claim limit summarize mr st).2
    · simp only [hstop, if_true] at h
      exact iteration_mixed_mono gen api claim limit summarize mr st h
    · simp only [hstop, if_false] at h
      exact iteration_mixed_mono gen api claim limit summarize mr st (ih _ h)

/-- A loop run never consulting the mixer keeps the stored queries
pairwise distinct. -/
theorem searchLoop_nodup (gen api : Nat → String) (claim : String)
    (limit summarize : Bool) (mr : Nat) :
    ∀ (n : Nat) (st : SState),
      (searchLoop gen api claim limit summarize mr st n).mixed = false →
      (st.results.map SearchResult.query).Nodup →
      ((searchLoop gen api claim limit summarize mr st n).results.map
        SearchResult.query).Nodup := by
  intro n
  induction n with
  | zero => intro st _ hnd; simpa [searchLoop] using hnd
  | succ k ih =>
    intro st h hnd
    unfold searchLoop at h ⊢
    by_cases hstop : (searchIteration gen api claim limit summarize mr st).2
    · simp only [hstop, if_true] at h ⊢
      exact iteration_nodup gen api claim limit summarize mr st h hnd
    · simp only [hstop, if_false] at h ⊢
      exact ih _ h
        (iteration_nodup gen api claim limit summarize mr st
          (searchLoop_mixed_mono gen api claim limit summarize mr k _ h)
          hnd)

/-- Every branch of Judge.maybe_get_final_answer constructs a FinalAnswer:
the None alternative of the declared return type never occurs. -/
theorem maybeGetFinalAnswer_isSome (gen : Nat → String)
    (ev : List SearchResult) (i : Nat) :
    (maybeGetFinalAnswer gen ev i).1.isSome = true := by
  unfold maybeGetFinalAnswer
  dsimp only
  split
  · rfl
  · split
    · rfl
    · rfl

/-- When the retry loop of Judge.judge leaves through the break (budget
exhausted), the verdict it returns is the last generated one, which the
loop condition had just tested equal to REFUSED_TO_ANSWER. -/
theorem judgeLoop_exhausted (gen : Nat → String) (classes : List Label) :
    ∀ (fuel i : Nat),
      (judgeLoop gen classes i fuel).exhausted = true →
      (judgeLoop gen classes i fuel).verdict = Label.REFUSED_TO_ANSWER := by
  intro fuel
  induction fuel with
  | zero => intro i _; rfl
  | succ f ih =>
    intro i h
    unfold judgeLoop at h ⊢
    by_cases hv : (generateVerdict gen classes i).1 = Label.REFUSED_TO_ANSWER
    · simp only [hv, if_true] at h ⊢
      exact ih _ h
    · simp only [hv, if_false] at h
      exact absurd h (by simp)

/-- The store update leaves the store unchanged exactly when the step
result is absent or empty. -/
theorem appendResult_eq_self (rs : List SearchResult) (o : Option SearchResult) :
    (appendResult rs o = rs) ↔
    (o.bind SearchResult.result = none ∨ o.bind SearchResult.result = some "") := by
  rcases o with _ | ns
  · simp [appendResult]
  · rcases hns : ns.result with _ | res
    · simp [appendResult, hns]
    · by_cases hres : res = ""
      · simp [appendResult, hns, hres]
      · rw [show (some ns).bind SearchResult.result = ns.result from rfl, hns]
        simp only [appendResult, hns, hres, if_false]
        constructor
        · intro he
          have hlen := congrArg List.length he
          simp at hlen
        · rintro (h1 | h1)
          · exact absurd h1 (by simp)
          · exact absurd (Option.some.inj h1) hres

/-- The retry loop of Judge.reason returns after its first iteration with
the answer produced by that first attempt. -/
theorem reasonLoop_first (gen : Nat → String) (ev : List SearchResult) (mr : Nat) :
    (reasonLoop gen ev 0 (mr + 1) 0).tries = 1 ∧
    (reasonLoop gen ev 0 (mr + 1) 0).fa = (maybeGetFinalAnswer gen ev 0).1 := by
  rcases hfa : (maybeGetFinalAnswer gen ev 0).1 with _ | a
  · have hs := maybeGetFinalAnswer_isSome gen ev 0
    rw [hfa] at hs
    simp at hs
  · unfold reasonLoop
    simp [hfa]

/-! ## Claim theorems -/

/-- Claim C1: the property says decide (Judge.reason / Reasoner.reason)
always returns a label from the declared set and never raises.  The code
violates this for Reasoner.reason: besides the unresolved merge-conflict
markers at reasoner.py lines 9-13 (the module does not even parse), any
model response without a valid bracketed label reaches the corrective
branch at line 68, which interpolates the undefined name labels and raises
NameError.  This theorem evaluates the embedded Reasoner.reason at such a
response. -/
theorem c1_reasoner_fault :
    reasonerReason (fun _ => "The claim seems plausible to me.") 2 =
      .error "NameError: name labels is not defined" := rfl

/-- Claim C2 (counterexample): the claim says the reasoning path returns
REFUSED_TO_ANSWER on retry exhaustion, but the value Judge.reason returns
when its loop ends without a final answer (judge.py line 99) carries the
label REFUTED, not REFUSED_TO_ANSWER. -/
theorem c2_fallback_not_refused :
    judgeReasonFallback.1 = Label.REFUTED ∧
    judgeReasonFallback.1 ≠ Label.REFUSED_TO_ANSWER := by decide

/-- Claim C2 (amended): in judge-only mode (Judge.judge) exhausting the
retry budget does return REFUSED_TO_ANSWER; in reason mode (Judge.reason)
the budget is never exhausted because every attempt yields a FinalAnswer
(the loop runs exactly once), and its dead exhaustion branch would return
(REFUTED, "") rather than REFUSED_TO_ANSWER. -/
theorem c2_exhaustion_amended :
    (∀ (gen : Nat → String) (classes : List Label) (mr : Nat),
       (judgeJudge gen classes mr).exhausted = true →
       (judgeJudge gen classes mr).verdict = Label.REFUSED_TO_ANSWER)
    ∧ (∀ (gen : Nat → String) (ev : List SearchResult) (mr : Nat),
       (reasonLoop gen ev 0 (mr + 1) 0).tries = 1 ∧
       (reasonLoop gen ev 0 (mr + 1) 0).fa.isSome = true)
    ∧ judgeReasonFallback = (Label.REFUTED, "") := by
  refine ⟨?_, ?_, rfl⟩
  · intro gen classes mr h
    exact judgeLoop_exhausted gen classes (mr + 1) 0 h
  · intro gen ev mr
    refine ⟨(reasonLoop_first gen ev mr).1, ?_⟩
    rw [(reasonLoop_first gen ev mr).2]
    exact maybeGetFinalAnswer_isSome gen ev 0

/-- Claim C2 (witness): a concrete session whose model output never parses
exhausts the judge retry budget and ends at REFUSED_TO_ANSWER. -/
theorem c2_exhaustion_witness :
    (judgeJudge (fun _ => "junk") [] 0).exhausted = true ∧
    (judgeJudge (fun _ => "junk") [] 0).verdict = Label.REFUSED_TO_ANSWER :=
  ⟨by decide, c2_exhaustion_amended.1 (fun _ => "junk") [] 0 (by decide)⟩

/-- Claim C3: the claim (and the comment at searcher.py line 122) says a
step whose result duplicates a stored result still appends its pair with
an absent result so the query stays blocked.  The code drops the pair:
in this session step 2 issues q2, receives the already-stored R, and the
(q2, None) record is never appended (the store skips every falsy result,
searcher.py lines 61-66); step 3 then proposes q2 again and it is NOT
recognized as a duplicate (the mixer flag stays false) because only stored
entries are checked. -/
theorem c3_duplicate_result_dropped :
    (search genC3 apiC3 "c" false true 3 0).results =
      [⟨"q1", some "R"⟩, ⟨"q2", some "R2"⟩] ∧
    (search genC3 apiC3 "c" false true 3 0).mixed = false := by decide

/-- Claim C4: the evidence store holds at most one entry per executed outer
step, so it never exceeds max_steps entries, at every point of the loop
and at exit. -/
theorem c4_store_bounded :
    ∀ (gen api : Nat → String) (claim : String) (limit summarize : Bool)
      (maxSteps mr n : Nat) (st : SState),
      ((searchLoop gen api claim limit summarize mr st n).results.length ≤
        st.results.length + n)
      ∧ ((search gen api claim limit summarize maxSteps mr).results.length ≤
        maxSteps) := by
  intro gen api claim limit summarize maxSteps mr n st
  constructor
  · exact searchLoop_len gen api claim limit summarize mr n st
  · have h := searchLoop_len gen api claim limit summarize mr maxSteps
      ⟨[], 0, 0, 0, false⟩
    simpa [search] using h

/-- Claim C5 (counterexample): two entries of the store can share the same
query string.  The model proposes the fenced query q twice; the duplicate
check fires and issues the mixer re-prompt, but the mixer answer (again q)
is stored without any re-check, and the result-text dedup does not catch it
because only the summary of the first long result was stored. -/
theorem c5_duplicate_query_possible :
    ¬ ((search genC5 apiC5 "c" false true 2 0).results.map
        SearchResult.query).Nodup := by decide

/-- Claim C5 (amended): no two entries of the store share a query string
provided the duplicate-query mixer re-prompt was never consulted during
the session; the dedup check only guards the initially extracted query,
and a mixer response is stored unchecked. -/
theorem c5_nodup_when_unmixed (gen api : Nat → String) (claim : String)
    (limit summarize : Bool) (maxSteps mr : Nat)
    (h : (search gen api claim limit summarize maxSteps mr).mixed = false) :
    ((search gen api claim limit summarize maxSteps mr).results.map
      SearchResult.query).Nodup := by
  unfold search at h ⊢
  exact searchLoop_nodup gen api claim limit summarize mr maxSteps
    ⟨[], 0, 0, 0, false⟩ h (by simp)

/-- Claim C5 (witness): a session with two distinct fresh queries never
consults the mixer and its stored queries are distinct. -/
theorem c5_nodup_witness :
    ((search genW apiW "c" false false 2 0).results.map
      SearchResult.query).Nodup :=
  c5_nodup_when_unmixed genW apiW "c" false false 2 0 (by decide)

/-- Claim C6: with limit_search set, the loop stops after a step exactly
when the sufficiency response, lowercased, equals "sufficient" (any other
response continues); and the scenario from the spec -- "insufficient"
after step one, "sufficient" after step two -- performs exactly 2 search
steps. -/
theorem c6_sufficiency_stop :
    (∀ (gen api : Nat → String) (claim : String) (summarize : Bool)
       (mr : Nat) (st : SState),
       ((searchIteration gen api claim true summarize mr st).2 = true ↔
         lowerStr (gen (searchStepCore gen api claim summarize mr st).i) =
           "sufficient"))
    ∧ (search genC6 apiC6 "The sky is green." true true 5 2).steps = 2 := by
  constructor
  · intro gen api claim summarize mr st
    unfold searchIteration
    simp [beq_iff_eq]
  · decide

/-- Claim C6 (witness): at the state reached after the first step of the
scenario, the sufficiency response "sufficient" makes the stop signal
fire. -/
theorem c6_sufficiency_witness :
    (searchIteration genC6 apiC6 "The sky is green." true true 2
      ⟨[⟨"q1", some "r1"⟩], 2, 1, 1, false⟩).2 = true :=
  (c6_sufficiency_stop.1 genC6 apiC6 "The sky is green." true 2
    ⟨[⟨"q1", some "r1"⟩], 2, 1, 1, false⟩).mpr (by decide)

/-- Claim C7: when every model response is unparseable (no guardrail hit
and no extractable valid label) and max_retries = 2, Judge.judge makes
exactly 3 end-to-end generation attempts (1 + max_retries) and returns
REFUSED_TO_ANSWER through the exhausted break. -/
theorem c7_three_attempts_refused (gen : Nat → String) (classes : List Label)
    (h : ∀ k, isGuardrailHit (gen k) = false ∧
         extractVerdict classes (gen k) = Label.REFUSED_TO_ANSWER) :
    judgeJudge gen classes 2 = ⟨Label.REFUSED_TO_ANSWER, 3, true⟩ := by
  have e : ∀ k, generateVerdict gen classes k = (Label.REFUSED_TO_ANSWER, k + 1) := by
    intro k
    simp [generateVerdict, (h k).1, (h k).2]
  show judgeLoop gen classes 0 (2 + 1) = ⟨Label.REFUSED_TO_ANSWER, 3, true⟩
  simp [judgeLoop, e]

/-- Claim C7 (witness): a concrete always-unparseable model makes exactly
3 generation attempts and ends refused. -/
theorem c7_three_attempts_witness :
    judgeJudge (fun _ => "gibberish")
        [Label.SUPPORTED, Label.NOT_ENOUGH_INFO, Label.REFUTED] 2 =
      ⟨Label.REFUSED_TO_ANSWER, 3, true⟩ :=
  c7_three_attempts_refused _ _ (fun _ => by decide)

/-- Claim C8: when the normalized token is nonempty and direct enumeration
lookup fails, the extractor substring-matches the token against the
candidate labels in classes-list order and returns the first match. -/
theorem c8_substring_first_match (classes : List Label) (response : String)
    (c : Label)
    (hne : lowerStr (stripStr (String.mk (filterWordOrSpace
      (extract_last_code_span response).data))) ≠ "")
    (hlk : labelOfValue? (lowerStr (stripStr (String.mk (filterWordOrSpace
      (extract_last_code_span response).data)))) = none)
    (hfind : classes.find? (fun cl => infixOf cl.value.data
      (lowerStr (stripStr (String.mk (filterWordOrSpace
        (extract_last_code_span response).data)))).data) = some c) :
    extractVerdict classes response = c := by
  unfold extractVerdict
  simp only [hlk, hfind, if_neg hne]

/-- Claim C8 (witness): a token containing the canonical values of two
candidates resolves to the earlier one in the classes list. -/
theorem c8_substring_witness :
    extractVerdict [Label.REFUTED, Label.SUPPORTED] "`supported refuted`" =
      Label.REFUTED :=
  c8_substring_first_match _ _ _ (by decide) (by decide) (by decide)

/-- Claim C9: Judge.maybe_get_final_answer constructs a FinalAnswer on
every branch, so the retry loop of Judge.reason runs exactly one iteration
for every max_retries and its result is the first attempt's answer; the
exhaustion fallback is unreachable. -/
theorem c9_final_answer_always_some :
    ∀ (gen : Nat → String) (ev : List SearchResult) (i mr : Nat),
      (maybeGetFinalAnswer gen ev i).1.isSome = true ∧
      (reasonLoop gen ev 0 (mr + 1) 0).tries = 1 ∧
      (reasonLoop gen ev 0 (mr + 1) 0).fa = (maybeGetFinalAnswer gen ev 0).1 :=
  fun gen ev i mr =>
    ⟨maybeGetFinalAnswer_isSome gen ev i,
     (reasonLoop_first gen ev mr).1,
     (reasonLoop_first gen ev mr).2⟩

/-- Claim C10: Searcher._maybe_get_next_search returns a SearchResult on
every path, so the inner retry loop runs its body exactly once per outer
step (the retry budget is never consumed), and a step leaves the store
unchanged exactly when the returned result is absent or empty -- never
because of a missing SearchResult. -/
theorem c10_inner_retry_once :
    ∀ (gen api : Nat → String) (claim : String) (past : List SearchResult)
      (summarize : Bool) (i j mr : Nat) (st : SState),
      (searchInner gen api claim past summarize i j (mr + 1) 0).tries = 1 ∧
      (searchInner gen api claim past summarize i j (mr + 1) 0).next =
        (maybeGetNextSearch gen api claim past summarize i j).next ∧
      (maybeGetNextSearch gen api claim past summarize i j).next.isSome = true ∧
      (((searchStepCore gen api claim summarize mr st).results = st.results) ↔
        ((maybeGetNextSearch gen api claim st.results summarize st.i st.j).next.bind
            SearchResult.result = none ∨
         (maybeGetNextSearch gen api claim st.results summarize st.i st.j).next.bind
            SearchResult.result = some "")) := by
  intro gen api claim past summarize i j mr st
  refine ⟨rfl, rfl, rfl, ?_⟩
  rw [stepCore_eq]
  exact appendResult_eq_self st.results
    (maybeGetNextSearch gen api claim st.results summarize st.i st.j).next

/-- Claim C10 (witness): at a state holding the result R, the step whose
backend result duplicates R leaves the store unchanged. -/
theorem c10_inner_retry_witness :
    (searchStepCore genC3 apiC3 "c" true 0
      ⟨[⟨"q1", some "R"⟩], 1, 1, 1, false⟩).results = [⟨"q1", some "R"⟩] :=
  ((c10_inner_retry_once genC3 apiC3 "c" [] true 0 0 0
    ⟨[⟨"q1", some "R"⟩], 1, 1, 1, false⟩).2.2.2).mpr (by decide)
